import Mathlib

/-!
Verification of the fact-resolution and model-assembly pipeline of
`src/main.py` (dynamic semantic model creation).

The Python code manipulates YAML documents (nested dicts/lists/scalars).
We embed such documents as the inductive type `Yaml`; Python dicts become
association lists keyed by strings (YAML mapping keys in this code base are
strings, and Python dicts preserve insertion order).  File-system and
network interactions are embedded by parameterising each function over the
outcome of the interaction (`ReadOutcome`, `PutEnv`), and Python `print`
diagnostics are collected as an explicit list of `Diag` values.  Python
exceptions are modelled with `Except PyErr`.
-/

namespace DynSem

/-- A YAML document value, the result of `yaml.safe_load`: `None`, booleans,
integers, strings, sequences and string-keyed mappings.  (Floats do not occur
in any of the behaviours verified here.) -/
inductive Yaml where
  | null
  | bool (b : Bool)
  | int (n : Int)
  | str (s : String)
  | seq (xs : List Yaml)
  | map (kvs : List (String × Yaml))

mutual

def yamlDecEq : (a b : Yaml) → Decidable (a = b)
  | .null, .null => isTrue rfl
  | .bool a, .bool b =>
    match decEq a b with
    | isTrue h => isTrue (by rw [h])
    | isFalse h => isFalse (by intro hc; injection hc; contradiction)
  | .int a, .int b =>
    match decEq a b with
    | isTrue h => isTrue (by rw [h])
    | isFalse h => isFalse (by intro hc; injection hc; contradiction)
  | .str a, .str b =>
    match decEq a b with
    | isTrue h => isTrue (by rw [h])
    | isFalse h => isFalse (by intro hc; injection hc; contradiction)
  | .seq xs, .seq ys =>
    match yamlListDecEq xs ys with
    | isTrue h => isTrue (by rw [h])
    | isFalse h => isFalse (by intro hc; injection hc; contradiction)
  | .map xs, .map ys =>
    match yamlKVDecEq xs ys with
    | isTrue h => isTrue (by rw [h])
    | isFalse h => isFalse (by intro hc; injection hc; contradiction)
  | .null, .bool _ | .null, .int _ | .null, .str _ | .null, .seq _
  | .null, .map _ => isFalse (by intro h; exact Yaml.noConfusion h)
  | .bool _, .null | .bool _, .int _ | .bool _, .str _ | .bool _, .seq _
  | .bool _, .map _ => isFalse (by intro h; exact Yaml.noConfusion h)
  | .int _, .null | .int _, .bool _ | .int _, .str _ | .int _, .seq _
  | .int _, .map _ => isFalse (by intro h; exact Yaml.noConfusion h)
  | .str _, .null | .str _, .bool _ | .str _, .int _ | .str _, .seq _
  | .str _, .map _ => isFalse (by intro h; exact Yaml.noConfusion h)
  | .seq _, .null | .seq _, .bool _ | .seq _, .int _ | .seq _, .str _
  | .seq _, .map _ => isFalse (by intro h; exact Yaml.noConfusion h)
  | .map _, .null | .map _, .bool _ | .map _, .int _ | .map _, .str _
  | .map _, .seq _ => isFalse (by intro h; exact Yaml.noConfusion h)

def yamlListDecEq : (a b : List Yaml) → Decidable (a = b)
  | [], [] => isTrue rfl
  | [], _ :: _ => isFalse (by intro h; exact List.noConfusion h)
  | _ :: _, [] => isFalse (by intro h; exact List.noConfusion h)
  | x :: xs, y :: ys =>
    match yamlDecEq x y, yamlListDecEq xs ys with
    | isTrue h1, isTrue h2 => isTrue (by rw [h1, h2])
    | isFalse h1, _ => isFalse (by intro hc; injection hc; contradiction)
    | _, isFalse h2 => isFalse (by intro hc; injection hc; contradiction)

def yamlKVDecEq : (a b : List (String × Yaml)) → Decidable (a = b)
  | [], [] => isTrue rfl
  | [], _ :: _ => isFalse (by intro h; exact List.noConfusion h)
  | _ :: _, [] => isFalse (by intro h; exact List.noConfusion h)
  | (k1, v1) :: xs, (k2, v2) :: ys =>
    match decEq k1 k2, yamlDecEq v1 v2, yamlKVDecEq xs ys with
    | isTrue h0, isTrue h1, isTrue h2 => isTrue (by rw [h0, h1, h2])
    | isFalse h0, _, _ =>
      isFalse (by intro hc; injection hc with hh ht; injection hh; contradiction)
    | _, isFalse h1, _ =>
      isFalse (by intro hc; injection hc with hh ht; injection hh; contradiction)
    | _, _, isFalse h2 => isFalse (by intro hc; injection hc; contradiction)

end

instance : DecidableEq Yaml := yamlDecEq

/-- Python exceptions that the modelled code can raise. -/
inductive PyErr where
  | valueError (msg : String)
  | typeError
  | keyError
  | indexError
  | unboundLocalError
  | permissionError
  | unicodeDecodeError
  deriving DecidableEq, Repr

/-- Diagnostics emitted through `print` by the modelled code, abstracted from
their literal message strings. -/
inductive Diag where
  | yamlParseError
  | fileNotFound
  | errorLoadingFacts
  | factNotFound (name : String)
  | noFactsSelected
  | addedFacts (n : Nat)
  | noTablesWarning
  | skipRow (idx : Nat)
  | foundName (s : String)
  | totalExtracted (n : Nat)
  | uploadOk
  | uploadFailed
  | uploadError
  deriving DecidableEq, Repr

/-- First-occurrence lookup in a string-keyed association list.  Python dicts
have unique keys, for which first-occurrence lookup coincides with dict
indexing. -/
def lookupKV : List (String × Yaml) → String → Option Yaml
  | [], _ => none
  | (k, v) :: rest, key => if k = key then some v else lookupKV rest key

/-- Python dict item assignment `d[key] = v`: replaces the value at an
existing key in place (keeping its position), appends a new entry otherwise. -/
def assocSet : List (String × Yaml) → String → Yaml → List (String × Yaml)
  | [], key, v => [(key, v)]
  | (k, w) :: rest, key, v =>
    if k = key then (key, v) :: rest else (k, w) :: assocSet rest key v

/-- Python truthiness of a loaded document: `None`, `False`, `0`, `""`, `[]`
and `{}` are falsy. -/
def pyFalsy : Yaml → Bool
  | .null => true
  | .bool b => !b
  | .int n => n == 0
  | .str s => s.isEmpty
  | .seq xs => xs.isEmpty
  | .map kvs => kvs.isEmpty

/-- `bs` is a contiguous run inside `ls` (helper for Python `in` on strings). -/
def charListHasSub (p : List Char) (l : List Char) : Bool :=
  match l with
  | [] => p.isEmpty
  | _ :: rest => (l.take p.length == p) || charListHasSub p rest

/-- Python `key in container`: key membership for dicts, element equality
for lists (only string elements can equal a string), substring test for
strings, and a `TypeError` on non-iterable values. -/
def pyContains (container : Yaml) (key : String) : Except PyErr Bool :=
  match container with
  | .map kvs => .ok (kvs.any (fun kv => kv.1 == key))
  | .seq xs =>
    .ok (xs.any (fun x => match x with | .str s => s == key | _ => false))
  | .str s => .ok (charListHasSub key.data s.data)
  | _ => .error .typeError

/-- Python `container[key]` with a string key: dict lookup (`KeyError` when
absent); lists and strings require integer indices (`TypeError`); scalars are
not subscriptable (`TypeError`). -/
def pySubscriptKey (container : Yaml) (key : String) : Except PyErr Yaml :=
  match container with
  | .map kvs =>
    match lookupKV kvs key with
    | some v => .ok v
    | none => .error .keyError
  | _ => .error .typeError

/-- Python `len`: defined for sequences, strings and mappings; `TypeError`
on other values. -/
def pyLen : Yaml → Except PyErr Nat
  | .seq xs => .ok xs.length
  | .str s => .ok s.length
  | .map kvs => .ok kvs.length
  | _ => .error .typeError

/-- Outcome of opening, reading and parsing the file behind a path, the
boundary between `load_yaml` (src/main.py:459-474) and the file system:
either a parsed document, a `yaml.YAMLError` raised while parsing, a
`FileNotFoundError` raised by `open`, or any other exception raised during
opening/reading/parsing (e.g. `PermissionError` for an unreadable path,
`UnicodeDecodeError` for a non-UTF-8 file). -/
inductive ReadOutcome where
  | ok (doc : Yaml)
  | yamlError
  | notFound
  | otherError (e : PyErr)

/-- `load_yaml` (src/main.py:459-474): returns the parsed document; returns
`{}` with a logged message on `yaml.YAMLError` and on `FileNotFoundError`;
any other exception is not caught by the two `except` clauses and
propagates. -/
def load_yaml (r : ReadOutcome) : Except PyErr Yaml × List Diag :=
  match r with
  | .ok doc => (.ok doc, [])
  | .yamlError => (.ok (.map []), [.yamlParseError])
  | .notFound => (.ok (.map []), [.fileNotFound])
  | .otherError e => (.error e, [])

/-- `load_facts_from_yaml` (src/main.py:477-503): loads the catalog document
and dispatches on its shape — a list is returned directly; a dict with a
`facts` key yields that value, wrapped as a singleton list when it is not a
list; anything else yields `[]`.  The surrounding `try`/`except Exception`
turns any exception from the block (in particular one propagated by
`load_yaml`) into `[]`. -/
def load_facts_from_yaml (r : ReadOutcome) : List Yaml × List Diag :=
  match load_yaml r with
  | (.error _, ds) => ([], ds ++ [.errorLoadingFacts])
  | (.ok facts_data, ds) =>
    match facts_data with
    | .seq xs => (xs, ds)
    | .map kvs =>
      match lookupKV kvs "facts" with
      | some (.seq xs) => (xs, ds)
      | some v => ([v], ds)
      | none => ([], ds)
    | _ => ([], ds)

/-- The match condition of the resolver loop (src/main.py:521):
`isinstance(fact, dict) and fact.get('name') == fact_name`.  `dict.get`
yields `None` when the key is absent, and Python `==` against a string is
`True` only for an equal string. -/
def pyFactMatches (fact : Yaml) (fact_name : String) : Bool :=
  match fact with
  | .map kvs =>
    match lookupKV kvs "name" with
    | some (.str s) => s == fact_name
    | _ => false
  | _ => false

/-- The inner `for fact in all_facts: ... break` loop of `get_facts_by_names`
(src/main.py:519-523): the first matching fact, if any. -/
def findMatchingFact : List Yaml → String → Option Yaml
  | [], _ => none
  | fact :: rest, n =>
    if pyFactMatches fact n then some fact else findMatchingFact rest n

/-- The outer loop of `get_facts_by_names` (src/main.py:515-530): appends the
first match for each requested name in order, logging a warning and skipping
the name when there is no match. -/
def selectFacts : List String → List Yaml → List Yaml × List Diag
  | [], _ => ([], [])
  | n :: rest, all_facts =>
    let tail := selectFacts rest all_facts
    match findMatchingFact all_facts n with
    | some f => (f :: tail.1, tail.2)
    | none => (tail.1, .factNotFound n :: tail.2)

/-- `get_facts_by_names` (src/main.py:506-530): loads the catalog from the
facts file and resolves each requested name against it. -/
def get_facts_by_names (fact_names : List String) (factsFile : ReadOutcome) :
    List Yaml × List Diag :=
  let loaded := load_facts_from_yaml factsFile
  let sel := selectFacts fact_names loaded.1
  (sel.1, loaded.2 ++ sel.2)

/-- `d[key] = v` on a document known to be a dict (the assembler only reaches
its assignment with `dynamic_model` a dict, see `generate_dynamic_semantic_model`). -/
def yamlMapSet (d : Yaml) (key : String) (v : Yaml) : Yaml :=
  match d with
  | .map kvs => .map (assocSet kvs key v)
  | _ => d

/-- `generate_dynamic_semantic_model` (src/main.py:533-573), with file writing
(`output_path`) omitted: loads the base model (an exception from `load_yaml`
propagates), raises `ValueError` when the loaded base model is falsy, takes a
`copy.deepcopy` of it (an independent, structurally equal value), resolves the
requested facts, returns the copy unchanged when no facts were selected, and
otherwise replaces `dynamic_model['tables'][0]['facts']` when `'tables' in
dynamic_model and len(dynamic_model['tables']) > 0`, logging a no-tables
warning in the `else` branch.  The `TypeError`/`KeyError` arms mirror what the
interpreter raises when the `tables` field is not a non-empty list of dicts. -/
def generate_dynamic_semantic_model (fact_names : List String)
    (baseFile : ReadOutcome) (factsFile : ReadOutcome) :
    Except PyErr Yaml × List Diag :=
  match load_yaml baseFile with
  | (.error e, ds) => (.error e, ds)
  | (.ok base_model, ds0) =>
    if pyFalsy base_model then
      (.error (.valueError "Could not load base model"), ds0)
    else
      -- dynamic_model = copy.deepcopy(base_model)
      let dynamic_model := base_model
      let sel := get_facts_by_names fact_names factsFile
      let selected_facts := sel.1
      let ds1 := ds0 ++ sel.2
      if selected_facts.isEmpty then
        (.ok dynamic_model, ds1 ++ [.noFactsSelected])
      else
        match pyContains dynamic_model "tables" with
        | .error e => (.error e, ds1)
        | .ok false => (.ok dynamic_model, ds1 ++ [.noTablesWarning])
        | .ok true =>
          match pySubscriptKey dynamic_model "tables" with
          | .error e => (.error e, ds1)
          | .ok tv =>
            match pyLen tv with
            | .error e => (.error e, ds1)
            | .ok 0 => (.ok dynamic_model, ds1 ++ [.noTablesWarning])
            | .ok (_ + 1) =>
              match tv with
              | .seq (Yaml.map t0 :: ts) =>
                (.ok (yamlMapSet dynamic_model "tables"
                    (.seq (Yaml.map (assocSet t0 "facts" (.seq selected_facts)) :: ts))),
                  ds1 ++ [.addedFacts selected_facts.length])
              | .map _ => (.error .keyError, ds1)
              | _ => (.error .typeError, ds1)

/-- Two successive runs of the assembler from the same inputs, threading the
base template through: `copy.deepcopy` (src/main.py:552) gives
`dynamic_model` no mutable substructure shared with `base_model`, so the
subscript assignment of src/main.py:564 leaves the original template value
intact, and the template observed after the first run is the value passed
in.  The third component is the template object as it stands after the first
run; the second run assembles from it. -/
def assembleTwice (fact_names : List String) (baseDoc : Yaml)
    (factsFile : ReadOutcome) :
    (Except PyErr Yaml × List Diag) × (Except PyErr Yaml × List Diag) × Yaml :=
  let r1 := generate_dynamic_semantic_model fact_names (.ok baseDoc) factsFile
  let templateAfterFirst := baseDoc
  let r2 := generate_dynamic_semantic_model fact_names (.ok templateAfterFirst) factsFile
  (r1, r2, templateAfterFirst)

/-- Environment of one `upload_to_snowflake_stage` call: whether
`conn.cursor()` succeeds, whether `cursor.execute`/`fetchone` succeed, and
the row returned by `fetchone` (`none` models a `None` result). -/
structure PutEnv where
  cursorOk : Bool
  execOk : Bool
  fetchResult : Option (List Yaml)

/-- `upload_to_snowflake_stage` (src/main.py:135-186).  The stage name is
normalised to start with `@`; the result row's fixed position 6 must hold the
string `'UPLOADED'` for success.  Exceptions inside the `try` block are
caught and turn into `return False` — except that when `conn.cursor()` itself
raises, the local `cursor` was never assigned, and the `finally` block's
`if cursor:` raises `UnboundLocalError`, which replaces the pending return
and propagates to the caller. -/
def upload_to_snowflake_stage (env : PutEnv) (stage_name : String) :
    Except PyErr Bool × List Diag :=
  if env.cursorOk = false then
    (.error .unboundLocalError, [.uploadError])
  else
    let _stage := if stage_name.startsWith "@" then stage_name
                  else "@" ++ stage_name
    if env.execOk = false then (.ok false, [.uploadError])
    else
      match env.fetchResult with
      | none => (.ok false, [.uploadFailed])
      | some row =>
        if row.isEmpty then (.ok false, [.uploadFailed])
        else
          match row.get? 6 with
          | none => (.ok false, [.uploadError])
          | some v =>
            match v with
            | .str s =>
              if s == "UPLOADED" then (.ok true, [.uploadOk])
              else (.ok false, [.uploadFailed])
            | _ => (.ok false, [.uploadFailed])

/-- A value of the `ELEMENT_NUMBER` column in one row of the data-dictionary
query result: a string, an integer, or a SQL `NULL` (Python `None`). -/
inductive Cell where
  | s (v : String)
  | i (v : Int)
  | nullv
  deriving DecidableEq, Repr

/-- Python `str()` applied to a cell value; `str(None)` is the string
`"None"`. -/
def pyStrCell : Cell → String
  | .s v => v
  | .i v => toString v
  | .nullv => "None"

/-- One row, restricted to the `ELEMENT_NUMBER` column: `none` when the
column is absent from the row (so that `row.get('ELEMENT_NUMBER', '')`
returns the default `''`). -/
abbrev Row := Option Cell

/-- Python `str.strip()`: remove leading and trailing whitespace. -/
def pyStrip (s : String) : String :=
  ⟨((s.data.dropWhile Char.isWhitespace).reverse.dropWhile
      Char.isWhitespace).reverse⟩

/-- `str(row.get('ELEMENT_NUMBER', '')).strip()` (src/main.py:109). -/
def rowElementNumber (r : Row) : String :=
  pyStrip (pyStrCell (r.getD (.s "")))

/-- The loop of `extract_fact_names_from_dataframe` (src/main.py:108-116),
carrying the row index used in the skip diagnostic. -/
def extractLoop : Nat → List Row → List String × List Diag
  | _, [] => ([], [])
  | idx, r :: rest =>
    let en := rowElementNumber r
    let tail := extractLoop (idx + 1) rest
    if en = "" then (tail.1, .skipRow idx :: tail.2)
    else (en :: tail.1, .foundName en :: tail.2)

/-- `extract_fact_names_from_dataframe` (src/main.py:97-119). -/
def extract_fact_names_from_dataframe (rows : List Row) :
    List String × List Diag :=
  let r := extractLoop 0 rows
  (r.1, r.2 ++ [.totalExtracted r.1.length])

/-- A wall-clock instant at second resolution, the value of
`datetime.now()` truncated to seconds as observed by
`strftime("%Y%m%d_%H%M%S")`. -/
structure DateTime where
  year : Nat
  month : Nat
  day : Nat
  hour : Nat
  minute : Nat
  second : Nat
  deriving DecidableEq, Repr

/-- Two-digit zero-padded decimal rendering (strftime `%m`, `%d`, `%H`,
`%M`, `%S`), correct for values below 100. -/
def pad2 (n : Nat) : List Char :=
  [Nat.digitChar (n / 10 % 10), Nat.digitChar (n % 10)]

/-- Four-digit decimal rendering of the year (strftime `%Y`), correct for
years from 1000 to 9999. -/
def pad4 (n : Nat) : List Char :=
  [Nat.digitChar (n / 1000 % 10), Nat.digitChar (n / 100 % 10),
   Nat.digitChar (n / 10 % 10), Nat.digitChar (n % 10)]

/-- `datetime.now().strftime("%Y%m%d_%H%M%S")` (src/main.py:131). -/
def strftimeTimestamp (t : DateTime) : String :=
  ⟨pad4 t.year ++ pad2 t.month ++ pad2 t.day ++
    Char.ofNat 95 :: pad2 t.hour ++ pad2 t.minute ++ pad2 t.second⟩

/-- `generate_unique_filename` (src/main.py:122-132), parameterised by the
wall-clock instant of the call. -/
def generate_unique_filename (base_name : String) (extension : String)
    (t : DateTime) : String :=
  base_name ++ "_" ++ strftimeTimestamp t ++ "." ++ extension

/-- The ranges within which the digit renderings above are fixed-width and
faithful to strftime: a four-digit year and two-digit remaining fields
(every Python `datetime` month/day/hour/minute/second lies below 100). -/
def validTime (t : DateTime) : Bool :=
  1000 ≤ t.year && t.year ≤ 9999 && t.month < 100 && t.day < 100 &&
    t.hour < 100 && t.minute < 100 && t.second < 100

/-- Whether a document is a YAML sequence. -/
def isSeqY : Yaml → Bool
  | .seq _ => true
  | _ => false

/-- Whether a document is a YAML mapping. -/
def isMapY : Yaml → Bool
  | .map _ => true
  | _ => false

/-- Spec-side reference predicate, following the spec's words: the record's
`name` field equals the requested name under exact, case-sensitive string
comparison (a record without a string `name` field matches nothing). -/
def nameFieldIs (record : Yaml) (requested : String) : Bool :=
  match record with
  | .map kvs =>
    match lookupKV kvs "name" with
    | some (.str s) => decide (s = requested)
    | _ => false
  | _ => false

theorem pyFactMatches_eq_nameFieldIs (r : Yaml) (n : String) :
    pyFactMatches r n = nameFieldIs r n := by
  cases r with
  | map kvs =>
    simp only [pyFactMatches, nameFieldIs]
    cases lookupKV kvs "name" with
    | none => rfl
    | some v =>
      cases v with
      | str s => by_cases h : s = n <;> simp [h]
      | null => rfl
      | bool b => rfl
      | int m => rfl
      | seq xs => rfl
      | map m => rfl
  | null => rfl
  | bool b => rfl
  | int n => rfl
  | str s => rfl
  | seq xs => rfl

theorem findMatchingFact_eq_find? (l : List Yaml) (n : String) :
    findMatchingFact l n = l.find? (fun r => nameFieldIs r n) := by
  induction l with
  | nil => rfl
  | cons f rest ih =>
    simp only [findMatchingFact, List.find?, pyFactMatches_eq_nameFieldIs]
    by_cases h : nameFieldIs f n = true
    · simp [h]
    · simp only [Bool.not_eq_true] at h
      simp [h, ih]

theorem selectFacts_fst (ns : List String) (all_facts : List Yaml) :
    (selectFacts ns all_facts).1
      = ns.filterMap (fun n => all_facts.find? (fun r => nameFieldIs r n)) := by
  induction ns with
  | nil => rfl
  | cons n rest ih =>
    simp only [selectFacts, List.filterMap_cons, findMatchingFact_eq_find?]
    cases all_facts.find? (fun r => nameFieldIs r n) with
    | none => simpa using ih
    | some f => simpa using ih

/-- C1: `get_facts_by_names` returns, for each requested name in request
order, the first catalog record whose `name` field equals that name under
exact case-sensitive string comparison, omitting names with no matching
record; the result is never longer than the request, and requests resolve
independently, so splitting (in particular duplicating) the request list
splits (duplicates) the result. -/
theorem get_facts_by_names_resolves_in_order (names : List String)
    (factsFile : ReadOutcome) :
    (get_facts_by_names names factsFile).1
        = names.filterMap
            (fun n => ((load_facts_from_yaml factsFile).1).find?
              (fun r => nameFieldIs r n))
      ∧ (get_facts_by_names names factsFile).1.length ≤ names.length
      ∧ ∀ ns1 ns2 : List String,
          (get_facts_by_names (ns1 ++ ns2) factsFile).1
            = (get_facts_by_names ns1 factsFile).1
                ++ (get_facts_by_names ns2 factsFile).1 := by
  refine ⟨?_, ?_, ?_⟩
  · simp [get_facts_by_names, selectFacts_fst]
  · simp only [get_facts_by_names, selectFacts_fst]
    exact List.length_filterMap_le _ _
  · intro ns1 ns2
    simp [get_facts_by_names, selectFacts_fst, List.filterMap_append]

/-- C3: shape dispatch of the catalog loader — a bare sequence is returned
as-is; a mapping with a `facts` key yields that value when it is a sequence
and the value wrapped as a one-element sequence otherwise; every other shape
(null, boolean, integer, string, mapping without `facts`) yields `[]`; and
an exception escaping `load_yaml` inside the `try` block is caught by
`except Exception`, yielding `[]` instead of propagating. -/
theorem load_facts_from_yaml_shape_dispatch :
    (∀ xs : List Yaml, (load_facts_from_yaml (.ok (.seq xs))).1 = xs)
    ∧ (∀ (kvs : List (String × Yaml)) (xs : List Yaml),
        lookupKV kvs "facts" = some (.seq xs) →
          (load_facts_from_yaml (.ok (.map kvs))).1 = xs)
    ∧ (∀ (kvs : List (String × Yaml)) (v : Yaml),
        lookupKV kvs "facts" = some v → isSeqY v = false →
          (load_facts_from_yaml (.ok (.map kvs))).1 = [v])
    ∧ (∀ kvs : List (String × Yaml),
        lookupKV kvs "facts" = none →
          (load_facts_from_yaml (.ok (.map kvs))).1 = [])
    ∧ ((load_facts_from_yaml (.ok .null)).1 = []
        ∧ (∀ b, (load_facts_from_yaml (.ok (.bool b))).1 = [])
        ∧ (∀ n, (load_facts_from_yaml (.ok (.int n))).1 = [])
        ∧ (∀ s, (load_facts_from_yaml (.ok (.str s))).1 = []))
    ∧ (∀ (r : ReadOutcome) (e : PyErr),
        (load_yaml r).1 = .error e → (load_facts_from_yaml r).1 = []) := by
  refine ⟨fun xs => rfl, ?_, ?_, ?_, ⟨rfl, fun b => rfl, fun n => rfl, fun s => rfl⟩, ?_⟩
  · intro kvs xs h
    simp [load_facts_from_yaml, load_yaml, h]
  · intro kvs v h hns
    cases v with
    | seq xs => simp [isSeqY] at hns
    | null => simp [load_facts_from_yaml, load_yaml, h]
    | bool b => simp [load_facts_from_yaml, load_yaml, h]
    | int n => simp [load_facts_from_yaml, load_yaml, h]
    | str s => simp [load_facts_from_yaml, load_yaml, h]
    | map m => simp [load_facts_from_yaml, load_yaml, h]
  · intro kvs h
    simp [load_facts_from_yaml, load_yaml, h]
  · intro r e h
    cases r with
    | ok d => simp [load_yaml] at h
    | yamlError => simp [load_yaml] at h
    | notFound => simp [load_yaml] at h
    | otherError e2 => rfl

/-- C3 witness: singleton promotion at a concrete catalog — the source
`{facts: {name: "X"}}` (a single mapping under `facts`, not a sequence)
yields the one-element catalog `[{name: "X"}]`. -/
theorem load_facts_from_yaml_shape_dispatch_witness :
    lookupKV [("facts", Yaml.map [("name", Yaml.str "X")])] "facts"
        = some (Yaml.map [("name", Yaml.str "X")])
      ∧ isSeqY (Yaml.map [("name", Yaml.str "X")]) = false
      ∧ (load_facts_from_yaml
          (.ok (.map [("facts", Yaml.map [("name", Yaml.str "X")])]))).1
        = [Yaml.map [("name", Yaml.str "X")]] :=
  ⟨by decide, by decide,
    load_facts_from_yaml_shape_dispatch.2.2.1
      [("facts", Yaml.map [("name", Yaml.str "X")])]
      (Yaml.map [("name", Yaml.str "X")]) (by decide) (by decide)⟩

/-- C4 counterexample: an exception other than `yaml.YAMLError` and
`FileNotFoundError` — here a `PermissionError` raised by `open` on an
unreadable path — is not caught by `load_yaml` and propagates to the
caller, so document loading does not "never raise". -/
theorem load_yaml_propagates_other_exceptions :
    (load_yaml (.otherError .permissionError)).1 = .error .permissionError := rfl

/-- C4 amended: `load_yaml` returns an empty mapping (with a diagnostic)
exactly on YAML parse errors and on missing files, and returns the parsed
document on success; any other exception raised while opening, reading or
parsing (e.g. a permission error or a decoding error) propagates to the
caller uncaught. -/
theorem load_yaml_error_handling :
    load_yaml .yamlError = (.ok (.map []), [.yamlParseError])
    ∧ load_yaml .notFound = (.ok (.map []), [.fileNotFound])
    ∧ (∀ d : Yaml, load_yaml (.ok d) = (.ok d, []))
    ∧ (∀ e : PyErr, load_yaml (.otherError e) = (.error e, [])) :=
  ⟨rfl, rfl, fun _ => rfl, fun _ => rfl⟩

theorem lookupKV_assocSet_self (kvs : List (String × Yaml)) (k : String)
    (v : Yaml) : lookupKV (assocSet kvs k v) k = some v := by
  induction kvs with
  | nil => simp [assocSet, lookupKV]
  | cons kv rest ih =>
    by_cases h : kv.1 = k
    · simp [assocSet, lookupKV, h]
    · cases kv with
      | mk k0 v0 =>
        simp only [assocSet]
        simp only at h
        rw [if_neg h]
        simp [lookupKV, h, ih]

theorem lookupKV_assocSet_ne (kvs : List (String × Yaml)) (k k' : String)
    (v : Yaml) (h : k' ≠ k) :
    lookupKV (assocSet kvs k v) k' = lookupKV kvs k' := by
  have hkk : ¬(k = k') := fun hh => h hh.symm
  induction kvs with
  | nil =>
    simp only [assocSet, lookupKV]
    rw [if_neg hkk]
  | cons kv rest ih =>
    cases kv with
    | mk k0 v0 =>
      by_cases h0 : k0 = k
      · subst h0
        simp only [assocSet, if_pos rfl, lookupKV]
        rw [if_neg hkk, if_neg hkk]
      · simp only [assocSet, if_neg h0, lookupKV]
        by_cases h1 : k0 = k'
        · simp [h1]
        · simp [h1, ih]

theorem any_key_eq_isSome (kvs : List (String × Yaml)) (key : String) :
    (kvs.any (fun kv => kv.1 == key)) = (lookupKV kvs key).isSome := by
  induction kvs with
  | nil => rfl
  | cons kv rest ih =>
    cases kv with
    | mk k0 v0 =>
      by_cases h : k0 = key
      · simp [lookupKV, h]
      · simp [lookupKV, h, ih]

/-- C2 counterexample: with an empty resolved fact list (here: no requested
names) the assembler returns the template copy unchanged — the first table's
`facts` field keeps its old value instead of being replaced by the (empty)
resolved list. -/
theorem generate_keeps_old_facts_on_empty_selection :
    (generate_dynamic_semantic_model []
        (.ok (.map [("tables", .seq [.map [("facts", .seq [.str "old"])]])]))
        (.ok (.seq []))).1
      = .ok (.map [("tables", .seq [.map [("facts", .seq [.str "old"])]])])
    ∧ (get_facts_by_names [] (.ok (.seq []))).1 = []
    ∧ Yaml.seq [.str "old"] ≠ Yaml.seq [] :=
  ⟨rfl, rfl, by decide⟩

/-- C2 amended: whenever the template's `tables` field is a non-empty
sequence whose first element is a mapping AND the resolved fact list is
non-empty, the result is the template copy with the first table's `facts`
field fully replaced by the resolved list; the other tables, every other
field of the first table, and every template field other than `tables` pass
through unchanged.  (When the resolved list is empty the template copy is
returned unchanged — see the counterexample.) -/
theorem generate_replaces_first_table_facts (fact_names : List String)
    (bkvs t0 : List (String × Yaml)) (ts : List Yaml) (factsFile : ReadOutcome)
    (htab : lookupKV bkvs "tables" = some (.seq (Yaml.map t0 :: ts)))
    (hsel : (get_facts_by_names fact_names factsFile).1 ≠ []) :
    (generate_dynamic_semantic_model fact_names (.ok (.map bkvs)) factsFile).1
      = .ok (.map (assocSet bkvs "tables"
          (.seq (Yaml.map (assocSet t0 "facts"
            (.seq (get_facts_by_names fact_names factsFile).1)) :: ts))))
    ∧ (∀ k, k ≠ "tables" →
        lookupKV (assocSet bkvs "tables"
          (.seq (Yaml.map (assocSet t0 "facts"
            (.seq (get_facts_by_names fact_names factsFile).1)) :: ts))) k
          = lookupKV bkvs k)
    ∧ lookupKV (assocSet t0 "facts"
        (.seq (get_facts_by_names fact_names factsFile).1)) "facts"
        = some (.seq (get_facts_by_names fact_names factsFile).1)
    ∧ (∀ k, k ≠ "facts" →
        lookupKV (assocSet t0 "facts"
          (.seq (get_facts_by_names fact_names factsFile).1)) k
          = lookupKV t0 k) := by
  have hne : bkvs.isEmpty = false := by
    cases bkvs with
    | nil => simp [lookupKV] at htab
    | cons kv rest => rfl
  have hselE : (get_facts_by_names fact_names factsFile).1.isEmpty = false := by
    cases h : (get_facts_by_names fact_names factsFile).1 with
    | nil => exact absurd h hsel
    | cons a l => rfl
  refine ⟨?_, fun k hk => lookupKV_assocSet_ne _ _ _ _ hk,
    lookupKV_assocSet_self _ _ _, fun k hk => lookupKV_assocSet_ne _ _ _ _ hk⟩
  simp only [generate_dynamic_semantic_model, load_yaml, pyFalsy, hne,
    Bool.false_eq_true, if_false, hselE, pyContains, any_key_eq_isSome, htab,
    Option.isSome_some, pySubscriptKey, pyLen, List.length_cons, yamlMapSet]

/-- C2 witness: a concrete template with one table and one extra field, and a
catalog resolving the single requested name. -/
theorem generate_replaces_first_table_facts_witness :
    lookupKV [("tables", Yaml.seq [Yaml.map [("name", Yaml.str "t1"),
          ("facts", Yaml.seq [])]]), ("x", Yaml.int 1)] "tables"
        = some (.seq (Yaml.map [("name", Yaml.str "t1"),
          ("facts", Yaml.seq [])] :: []))
    ∧ (get_facts_by_names ["A"]
        (.ok (.seq [.map [("name", .str "A")]]))).1 ≠ []
    ∧ (generate_dynamic_semantic_model ["A"]
        (.ok (.map [("tables", Yaml.seq [Yaml.map [("name", Yaml.str "t1"),
          ("facts", Yaml.seq [])]]), ("x", Yaml.int 1)]))
        (.ok (.seq [.map [("name", .str "A")]]))).1
      = .ok (.map (assocSet [("tables", Yaml.seq [Yaml.map
          [("name", Yaml.str "t1"), ("facts", Yaml.seq [])]]),
          ("x", Yaml.int 1)] "tables"
          (.seq (Yaml.map (assocSet [("name", Yaml.str "t1"),
            ("facts", Yaml.seq [])] "facts"
            (.seq (get_facts_by_names ["A"]
              (.ok (.seq [.map [("name", .str "A")]]))).1)) :: [])))) :=
  ⟨by decide, by decide,
    (generate_replaces_first_table_facts ["A"]
      [("tables", Yaml.seq [Yaml.map [("name", Yaml.str "t1"),
        ("facts", Yaml.seq [])]]), ("x", Yaml.int 1)]
      [("name", Yaml.str "t1"), ("facts", Yaml.seq [])] []
      (.ok (.seq [.map [("name", .str "A")]]))
      (by decide) (by decide)).1⟩

/-- A template document within the data model's domain: either falsy, or a
mapping whose `tables` field, when present, is a sequence of mappings
("a sequence of table definitions, each table a mapping"). -/
def wfTemplate (doc : Yaml) : Bool :=
  pyFalsy doc ||
    (match doc with
     | .map kvs =>
       match lookupKV kvs "tables" with
       | none => true
       | some (.seq ts) => ts.all isMapY
       | some _ => false
     | _ => false)

theorem generate_ok_of_not_falsy (fact_names : List String) (doc : Yaml)
    (factsFile : ReadOutcome) (hwf : wfTemplate doc = true)
    (hf : pyFalsy doc = false) :
    ∃ d, (generate_dynamic_semantic_model fact_names (.ok doc) factsFile).1
      = .ok d := by
  simp only [wfTemplate, hf, Bool.false_or] at hwf
  cases doc with
  | null => simp [pyFalsy] at hf
  | bool b => simp at hwf
  | int n => simp at hwf
  | str s => simp at hwf
  | seq xs => simp at hwf
  | map kvs =>
    simp only [generate_dynamic_semantic_model, load_yaml, hf,
      Bool.false_eq_true, if_false]
    cases hse : (get_facts_by_names fact_names factsFile).1.isEmpty with
    | true => exact ⟨_, rfl⟩
    | false =>
      simp only [pyContains, any_key_eq_isSome]
      cases hlk : lookupKV kvs "tables" with
      | none => exact ⟨_, rfl⟩
      | some tv =>
        simp only [hlk] at hwf
        cases tv with
        | null => simp at hwf
        | bool b => simp at hwf
        | int n => simp at hwf
        | str s => simp at hwf
        | map m => simp at hwf
        | seq ts =>
          simp only [Option.isSome_some, pySubscriptKey, hlk, pyLen]
          cases ts with
          | nil => exact ⟨_, rfl⟩
          | cons t ts2 =>
            simp only [List.all_cons, Bool.and_eq_true] at hwf
            cases t with
            | map t0 => exact ⟨_, rfl⟩
            | null => simp [isMapY] at hwf
            | bool b => simp [isMapY] at hwf
            | int n => simp [isMapY] at hwf
            | str s => simp [isMapY] at hwf
            | seq s => simp [isMapY] at hwf

/-- C5 amended: assembly raises exactly when the loaded template document is
falsy — the empty mapping returned by the loader on parse failure or missing
file, but equally `None` (empty file), an empty sequence, an empty string,
`0` or `false` — and the raised error is the descriptive `ValueError`;
within the data model's template domain (template load succeeded, `tables`
when present a sequence of mappings) assembly raises in no other case. -/
theorem generate_raises_iff_falsy_template (fact_names : List String)
    (doc : Yaml) (factsFile : ReadOutcome) (hwf : wfTemplate doc = true) :
    ((∃ e, (generate_dynamic_semantic_model fact_names (.ok doc)
        factsFile).1 = .error e) ↔ pyFalsy doc = true)
    ∧ (pyFalsy doc = true →
        (generate_dynamic_semantic_model fact_names (.ok doc) factsFile).1
          = .error (.valueError "Could not load base model")) := by
  have herr : pyFalsy doc = true →
      (generate_dynamic_semantic_model fact_names (.ok doc) factsFile).1
        = .error (.valueError "Could not load base model") := by
    intro hf
    simp [generate_dynamic_semantic_model, load_yaml, hf]
  refine ⟨⟨?_, fun hf => ⟨_, herr hf⟩⟩, herr⟩
  intro ⟨e, he⟩
  cases hf : pyFalsy doc with
  | true => rfl
  | false =>
    obtain ⟨d, hd⟩ := generate_ok_of_not_falsy fact_names doc factsFile hwf hf
    rw [hd] at he
    exact Except.noConfusion he

/-- C5 counterexample: the claim localises raising to template loads that
returned an empty mapping, but the code raises on every falsy load — here a
template file parsing to `None` (an empty YAML file), which is not an empty
mapping, still raises the `ValueError`. -/
theorem generate_raises_on_null_template :
    (generate_dynamic_semantic_model ["A"] (.ok .null) (.ok (.seq []))).1
      = .error (.valueError "Could not load base model")
    ∧ Yaml.null ≠ Yaml.map [] :=
  ⟨rfl, by decide⟩

/-- C5 witness: the empty-mapping template (the loader's parse-failure and
not-found result) is inside the claim's own case and raises. -/
theorem generate_raises_iff_falsy_template_witness :
    wfTemplate (Yaml.map []) = true
    ∧ ((∃ e, (generate_dynamic_semantic_model ["A"] (.ok (.map []))
        (.ok (.seq []))).1 = .error e) ↔ pyFalsy (Yaml.map []) = true)
    ∧ (pyFalsy (Yaml.map []) = true →
        (generate_dynamic_semantic_model ["A"] (.ok (.map []))
          (.ok (.seq []))).1
          = .error (.valueError "Could not load base model")) :=
  ⟨by decide,
    (generate_raises_iff_falsy_template ["A"] (.map []) (.ok (.seq []))
      (by decide)).1,
    (generate_raises_iff_falsy_template ["A"] (.map []) (.ok (.seq []))
      (by decide)).2⟩

/-- C6: assembling twice from the same template and the same requested names
yields structurally equal outputs, and the template object observed after
the first run is structurally equal to the one passed in: the assembler only
ever mutates the independent deep copy, never the original. -/
theorem assembly_idempotent_and_nonmutating (fact_names : List String)
    (baseDoc : Yaml) (factsFile : ReadOutcome) :
    (assembleTwice fact_names baseDoc factsFile).1
        = (assembleTwice fact_names baseDoc factsFile).2.1
      ∧ (assembleTwice fact_names baseDoc factsFile).2.2 = baseDoc :=
  ⟨rfl, rfl⟩

theorem selectFacts_diags (ns : List String) (all_facts : List Yaml) :
    ∀ d ∈ (selectFacts ns all_facts).2, ∃ n, d = Diag.factNotFound n := by
  induction ns with
  | nil => intro d hd; simp [selectFacts] at hd
  | cons n rest ih =>
    intro d hd
    simp only [selectFacts] at hd
    cases h : findMatchingFact all_facts n with
    | some f =>
      rw [h] at hd
      exact ih d hd
    | none =>
      rw [h] at hd
      rcases List.mem_cons.mp hd with h1 | h1
      · exact ⟨n, h1⟩
      · exact ih d h1

theorem load_facts_diags (r : ReadOutcome) :
    ∀ d ∈ (load_facts_from_yaml r).2,
      d = Diag.yamlParseError ∨ d = Diag.fileNotFound
        ∨ d = Diag.errorLoadingFacts := by
  intro d hd
  cases r with
  | ok doc =>
    cases doc with
    | null => simp [load_facts_from_yaml, load_yaml] at hd
    | bool b => simp [load_facts_from_yaml, load_yaml] at hd
    | int n => simp [load_facts_from_yaml, load_yaml] at hd
    | str s => simp [load_facts_from_yaml, load_yaml] at hd
    | seq xs => simp [load_facts_from_yaml, load_yaml] at hd
    | map kvs =>
      simp only [load_facts_from_yaml, load_yaml] at hd
      cases h : lookupKV kvs "facts" with
      | none => rw [h] at hd; simp at hd
      | some v =>
        rw [h] at hd
        cases v <;> simp at hd
  | yamlError =>
    simp only [load_facts_from_yaml, load_yaml, lookupKV] at hd
    simp at hd
    exact Or.inl hd
  | notFound =>
    simp only [load_facts_from_yaml, load_yaml, lookupKV] at hd
    simp at hd
    exact Or.inr (Or.inl hd)
  | otherError e =>
    simp only [load_facts_from_yaml, load_yaml] at hd
    simp at hd
    exact Or.inr (Or.inr hd)

theorem noTablesWarning_not_in_resolution (names : List String)
    (factsFile : ReadOutcome) :
    Diag.noTablesWarning ∉ (get_facts_by_names names factsFile).2 := by
  intro hd
  simp only [get_facts_by_names, List.mem_append] at hd
  rcases hd with hd | hd
  · rcases load_facts_diags factsFile _ hd with h | h | h <;> exact Diag.noConfusion h
  · obtain ⟨n, h⟩ := selectFacts_diags names _ _ hd
    exact Diag.noConfusion h

/-- C7 counterexample: against a template with no `tables` field but with an
empty resolved fact list, the assembler returns the copy unchanged yet emits
no "no table found" diagnostic (it reports that no facts were selected and
returns before the table check). -/
theorem generate_no_table_diag_missing_on_empty_selection :
    (generate_dynamic_semantic_model [] (.ok (.map [("a", .int 1)]))
        (.ok (.seq []))).1 = .ok (.map [("a", .int 1)])
    ∧ Diag.noTablesWarning ∉
        (generate_dynamic_semantic_model [] (.ok (.map [("a", .int 1)]))
          (.ok (.seq []))).2 :=
  ⟨rfl, by decide⟩

/-- The claim's premise on the template: the `tables` field is absent or an
empty sequence. -/
def tablesAbsentOrEmpty (kvs : List (String × Yaml)) : Bool :=
  match lookupKV kvs "tables" with
  | none => true
  | some (.seq xs) => xs.isEmpty
  | some _ => false

/-- C7 amended: for every non-empty template mapping whose `tables` field is
absent or an empty sequence, assembly returns the template copy unchanged
and does not raise; the "no table found" diagnostic accompanies the result
exactly when the resolved fact list is non-empty — when it is empty the
assembler instead reports that no facts were selected and never reaches the
table check. -/
theorem generate_no_table_graceful (fact_names : List String)
    (bkvs : List (String × Yaml)) (factsFile : ReadOutcome)
    (hne : bkvs ≠ []) (habs : tablesAbsentOrEmpty bkvs = true) :
    (generate_dynamic_semantic_model fact_names (.ok (.map bkvs))
        factsFile).1 = .ok (.map bkvs)
    ∧ ((get_facts_by_names fact_names factsFile).1 ≠ [] →
        Diag.noTablesWarning ∈
          (generate_dynamic_semantic_model fact_names (.ok (.map bkvs))
            factsFile).2)
    ∧ ((get_facts_by_names fact_names factsFile).1 = [] →
        Diag.noFactsSelected ∈
          (generate_dynamic_semantic_model fact_names (.ok (.map bkvs))
            factsFile).2
        ∧ Diag.noTablesWarning ∉
            (generate_dynamic_semantic_model fact_names (.ok (.map bkvs))
              factsFile).2) := by
  have hneE : bkvs.isEmpty = false := by
    cases bkvs with
    | nil => exact absurd rfl hne
    | cons kv rest => rfl
  cases hse : (get_facts_by_names fact_names factsFile).1 with
  | nil =>
    have hseE : (get_facts_by_names fact_names factsFile).1.isEmpty = true := by
      rw [hse]; rfl
    refine ⟨?_, fun hx => absurd rfl hx, fun _ => ⟨?_, ?_⟩⟩
    · simp [generate_dynamic_semantic_model, load_yaml, pyFalsy, hneE, hseE]
    · simp [generate_dynamic_semantic_model, load_yaml, pyFalsy, hneE, hseE]
    · simp only [generate_dynamic_semantic_model, load_yaml, pyFalsy, hneE,
        Bool.false_eq_true, if_false, hseE, if_true]
      intro hd
      simp only [List.nil_append, List.mem_append] at hd
      rcases hd with hd | hd
      · exact noTablesWarning_not_in_resolution fact_names factsFile hd
      · simp at hd
  | cons f fs =>
    have hseE : (get_facts_by_names fact_names factsFile).1.isEmpty = false := by
      rw [hse]; rfl
    have hmain :
        generate_dynamic_semantic_model fact_names (.ok (.map bkvs)) factsFile
          = (.ok (.map bkvs),
              [] ++ (get_facts_by_names fact_names factsFile).2
                ++ [Diag.noTablesWarning]) := by
      simp only [generate_dynamic_semantic_model, load_yaml, pyFalsy, hneE,
        Bool.false_eq_true, if_false, hseE, pyContains, any_key_eq_isSome]
      simp only [tablesAbsentOrEmpty] at habs
      cases hlk : lookupKV bkvs "tables" with
      | none => simp
      | some tv =>
        rw [hlk] at habs
        cases tv with
        | null => simp at habs
        | bool b => simp at habs
        | int n => simp at habs
        | str s => simp at habs
        | map m => simp at habs
        | seq xs =>
          cases xs with
          | nil => simp [pySubscriptKey, hlk, pyLen]
          | cons x xs2 => simp at habs
    refine ⟨?_, fun _ => ?_, fun hx => absurd hx (by simp)⟩
    · rw [hmain]
    · rw [hmain]
      simp

/-- C7 witness: a concrete template without a `tables` field and a request
that resolves one fact. -/
theorem generate_no_table_graceful_witness :
    ([("a", Yaml.int 1)] : List (String × Yaml)) ≠ []
    ∧ tablesAbsentOrEmpty [("a", Yaml.int 1)] = true
    ∧ (generate_dynamic_semantic_model ["A"] (.ok (.map [("a", .int 1)]))
        (.ok (.seq [.map [("name", .str "A")]]))).1 = .ok (.map [("a", .int 1)])
    ∧ ((get_facts_by_names ["A"]
          (.ok (.seq [.map [("name", .str "A")]]))).1 ≠ [] →
        Diag.noTablesWarning ∈
          (generate_dynamic_semantic_model ["A"] (.ok (.map [("a", .int 1)]))
            (.ok (.seq [.map [("name", .str "A")]]))).2) :=
  ⟨by decide, by decide,
    (generate_no_table_graceful ["A"] [("a", Yaml.int 1)]
      (.ok (.seq [.map [("name", .str "A")]])) (by decide) (by decide)).1,
    (generate_no_table_graceful ["A"] [("a", Yaml.int 1)]
      (.ok (.seq [.map [("name", .str "A")]])) (by decide) (by decide)).2.1⟩

/-- C9: the staging uploader's error boundary is broken in one case.  When
`conn.cursor()` itself raises, the `except` clause prepares `return False`,
but the `finally` block evaluates the never-assigned local `cursor`
(`if cursor:`), raising `UnboundLocalError`, which replaces the pending
return and propagates — contradicting the function's own "Returns: True if
successful, False otherwise" contract.  On the other paths the function
behaves as documented: `True` exactly when a result row exists and its
fixed-position field 6 is the string `'UPLOADED'`, `False` on any other
status, missing row, short row, or caught internal error. -/
theorem upload_cursor_failure_raises :
    (upload_to_snowflake_stage ⟨false, true, some [.null, .null, .null,
        .null, .null, .null, .str "UPLOADED"]⟩ "my_stage").1
      = .error .unboundLocalError
    ∧ (upload_to_snowflake_stage ⟨true, true, some [.null, .null, .null,
        .null, .null, .null, .str "UPLOADED"]⟩ "my_stage").1 = .ok true
    ∧ (upload_to_snowflake_stage ⟨true, true, some [.null, .null, .null,
        .null, .null, .null, .str "SKIPPED"]⟩ "my_stage").1 = .ok false
    ∧ (upload_to_snowflake_stage ⟨true, true, none⟩ "my_stage").1 = .ok false
    ∧ (upload_to_snowflake_stage ⟨true, true, some [.str "short"]⟩
        "my_stage").1 = .ok false
    ∧ (upload_to_snowflake_stage ⟨true, false, some [.null, .null, .null,
        .null, .null, .null, .str "UPLOADED"]⟩ "my_stage").1 = .ok false :=
  ⟨rfl, rfl, rfl, rfl, rfl, rfl⟩

/-- C10 counterexample: a row whose `ELEMENT_NUMBER` value is missing — a
SQL `NULL`, surfaced to Python as `None` — is not skipped: `str(None)` is
the non-empty string `"None"`, which is trimmed and kept as an extracted
identifier. -/
theorem extract_keeps_null_identifier :
    (extract_fact_names_from_dataframe [some Cell.nullv]).1 = ["None"]
    ∧ (extract_fact_names_from_dataframe [some Cell.nullv]).1 ≠ [] :=
  ⟨rfl, by decide⟩

theorem extractLoop_spec (idx : Nat) (rows : List Row) :
    (extractLoop idx rows).1
        = rows.filterMap (fun r =>
            if rowElementNumber r = "" then none else some (rowElementNumber r))
      ∧ ((extractLoop idx rows).2.filter
            (fun d => match d with | .skipRow _ => true | _ => false)).length
          = (rows.filter (fun r => rowElementNumber r == "")).length := by
  induction rows generalizing idx with
  | nil => exact ⟨rfl, rfl⟩
  | cons r rest ih =>
    obtain ⟨ih1, ih2⟩ := ih (idx + 1)
    by_cases h : rowElementNumber r = ""
    · constructor
      · simp [extractLoop, h, ih1]
      · simp [extractLoop, h, List.filter_cons, ih2]
    · constructor
      · simp [extractLoop, h, ih1]
      · simp [extractLoop, h, List.filter_cons, ih2]

/-- C10 amended: the extractor returns, for each row in order, the trimmed
string form of the `ELEMENT_NUMBER` value, skipping exactly the rows whose
value's string form trims to the empty string (in particular rows whose
column is absent, where the `''` default applies), with one skip diagnostic
per skipped row; every returned identifier is non-empty.  A present but null
value is NOT skipped: it stringifies to the non-empty `"None"` and is kept
(see the counterexample). -/
theorem extract_fact_names_spec (rows : List Row) :
    (extract_fact_names_from_dataframe rows).1
        = rows.filterMap (fun r =>
            if rowElementNumber r = "" then none else some (rowElementNumber r))
      ∧ (extract_fact_names_from_dataframe rows).1.all
          (fun s => !(s == "")) = true
      ∧ ((extract_fact_names_from_dataframe rows).2.filter
            (fun d => match d with | .skipRow _ => true | _ => false)).length
          = (rows.filter (fun r => rowElementNumber r == "")).length := by
  obtain ⟨h1, h2⟩ := extractLoop_spec 0 rows
  refine ⟨h1, ?_, ?_⟩
  · rw [show (extract_fact_names_from_dataframe rows).1
        = (extractLoop 0 rows).1 from rfl, h1]
    rw [List.all_eq_true]
    intro s hs
    rw [List.mem_filterMap] at hs
    obtain ⟨r, _, hr⟩ := hs
    by_cases h : rowElementNumber r = ""
    · rw [if_pos h] at hr; exact Option.noConfusion hr
    · rw [if_neg h] at hr
      cases hr
      simpa using h
  · rw [show (extract_fact_names_from_dataframe rows).2
        = (extractLoop 0 rows).2 ++ [.totalExtracted (extractLoop 0 rows).1.length]
        from rfl]
    rw [List.filter_append, List.length_append]
    simpa using h2

theorem digitChar_inj (a b : Nat) (ha : a < 10) (hb : b < 10)
    (h : Nat.digitChar a = Nat.digitChar b) : a = b := by
  interval_cases a <;> interval_cases b <;>
    first
      | rfl
      | exact absurd h (by decide)

theorem pad2_inj {a b : Nat} (ha : a < 100) (hb : b < 100)
    (h : pad2 a = pad2 b) : a = b := by
  simp only [pad2, List.cons.injEq, and_true] at h
  obtain ⟨h1, h2⟩ := h
  have e1 := digitChar_inj _ _ (Nat.mod_lt _ (by omega))
    (Nat.mod_lt _ (by omega)) h1
  have e2 := digitChar_inj _ _ (Nat.mod_lt _ (by omega))
    (Nat.mod_lt _ (by omega)) h2
  omega

theorem pad4_inj {a b : Nat} (ha : a < 10000) (hb : b < 10000)
    (h : pad4 a = pad4 b) : a = b := by
  simp only [pad4, List.cons.injEq, and_true] at h
  obtain ⟨h1, h2, h3, h4⟩ := h
  have e1 := digitChar_inj _ _ (Nat.mod_lt _ (by omega))
    (Nat.mod_lt _ (by omega)) h1
  have e2 := digitChar_inj _ _ (Nat.mod_lt _ (by omega))
    (Nat.mod_lt _ (by omega)) h2
  have e3 := digitChar_inj _ _ (Nat.mod_lt _ (by omega))
    (Nat.mod_lt _ (by omega)) h3
  have e4 := digitChar_inj _ _ (Nat.mod_lt _ (by omega))
    (Nat.mod_lt _ (by omega)) h4
  omega

theorem strftimeTimestamp_inj (t1 t2 : DateTime) (hv1 : validTime t1 = true)
    (hv2 : validTime t2 = true)
    (h : strftimeTimestamp t1 = strftimeTimestamp t2) : t1 = t2 := by
  cases t1 with
  | mk y1 mo1 d1 h1 mi1 s1 =>
    cases t2 with
    | mk y2 mo2 d2 h2 mi2 s2 =>
      simp only [validTime, Bool.and_eq_true, decide_eq_true_eq] at hv1 hv2
      have hd : pad4 y1 ++ (pad2 mo1 ++ (pad2 d1 ++
            ((Char.ofNat 95 :: pad2 h1) ++ (pad2 mi1 ++ pad2 s1))))
          = pad4 y2 ++ (pad2 mo2 ++ (pad2 d2 ++
            ((Char.ofNat 95 :: pad2 h2) ++ (pad2 mi2 ++ pad2 s2)))) := by
        have := congrArg String.data h
        simpa [strftimeTimestamp] using this
      obtain ⟨hy, hr1⟩ := List.append_inj hd rfl
      obtain ⟨hmo, hr2⟩ := List.append_inj hr1 rfl
      obtain ⟨hdd, hr3⟩ := List.append_inj hr2 rfl
      obtain ⟨hhh, hr4⟩ := List.append_inj hr3 rfl
      obtain ⟨hmi, hs⟩ := List.append_inj hr4 rfl
      injection hhh with _ hhh2
      simp only [DateTime.mk.injEq]
      refine ⟨pad4_inj (by omega) (by omega) hy,
        pad2_inj (by omega) (by omega) hmo,
        pad2_inj (by omega) (by omega) hdd,
        pad2_inj (by omega) (by omega) hhh2,
        pad2_inj (by omega) (by omega) hmi,
        pad2_inj (by omega) (by omega) hs⟩

/-- C8: the generated filename is exactly
`{base}_{YYYYMMDD}_{HHMMSS}.{extension}` — the character data of the
timestamp part is the four zero-padded year digits, two month digits and two
day digits, an underscore, then two digits each of hour, minute and second
of the wall-clock instant of the call; two calls whose (second-resolution)
wall-clock instants differ produce distinct strings, while calls at the same
instant produce the identical string. -/
theorem generate_unique_filename_spec (base_name extension : String)
    (t1 t2 : DateTime) (hv1 : validTime t1 = true) (hv2 : validTime t2 = true)
    (hne : t1 ≠ t2) :
    generate_unique_filename base_name extension t1
        = base_name ++ "_" ++ strftimeTimestamp t1 ++ "." ++ extension
      ∧ (strftimeTimestamp t1).data
        = pad4 t1.year ++ pad2 t1.month ++ pad2 t1.day ++
            Char.ofNat 95 :: pad2 t1.hour ++ pad2 t1.minute ++ pad2 t1.second
      ∧ generate_unique_filename base_name extension t1
          ≠ generate_unique_filename base_name extension t2 := by
  refine ⟨rfl, rfl, fun heq => hne ?_⟩
  apply strftimeTimestamp_inj t1 t2 hv1 hv2
  have hdata : base_name.data ++ (Char.ofNat 95 ::
        ((strftimeTimestamp t1).data ++ (Char.ofNat 46 :: extension.data)))
      = base_name.data ++ (Char.ofNat 95 ::
        ((strftimeTimestamp t2).data ++ (Char.ofNat 46 :: extension.data))) := by
    have := congrArg String.data heq
    simpa [generate_unique_filename] using this
  have h3 := List.append_cancel_left hdata
  injection h3 with _ h4
  obtain ⟨h5, _⟩ := List.append_inj h4
    (by cases t1; cases t2; rfl)
  exact congrArg String.mk h5

/-- C8 witness: two instants one second apart (the spec's own example date)
give distinct filenames. -/
theorem generate_unique_filename_spec_witness :
    validTime ⟨2024, 12, 15, 14, 35, 32⟩ = true
    ∧ validTime ⟨2024, 12, 15, 14, 35, 33⟩ = true
    ∧ (⟨2024, 12, 15, 14, 35, 32⟩ : DateTime) ≠ ⟨2024, 12, 15, 14, 35, 33⟩
    ∧ generate_unique_filename "mortgage_model" "yaml"
          ⟨2024, 12, 15, 14, 35, 32⟩
        ≠ generate_unique_filename "mortgage_model" "yaml"
          ⟨2024, 12, 15, 14, 35, 33⟩ :=
  ⟨by decide, by decide, by decide,
    (generate_unique_filename_spec "mortgage_model" "yaml"
      ⟨2024, 12, 15, 14, 35, 32⟩ ⟨2024, 12, 15, 14, 35, 33⟩
      (by decide) (by decide) (by decide)).2.2⟩

end DynSem
